import Mathlib

/-!
Verification of the calorie-tracker application core
(`src/CalorieTrackerApp.py`): the `ProfileCalculator` metrics class, the
goal-calorie adjustment with safety floor performed by
`CalorieTrackerApp.calculate_and_display_profile`, and the
`DatabaseManager` entry store (`save_entry`, `load_entries`,
`load_daily_totals`).

Modelling conventions:
* Python numbers (ints and floats) are modelled as `ℚ`; the formulas of
  the calculator involve only decimal literals, additions,
  multiplications and divisions, so rational arithmetic reproduces them
  exactly.
* Python `round(x, 0)` (banker's rounding, half to even) is modelled by
  `pyRound`.
* A Python value passed to `ProfileCalculator.__init__` is modelled by an
  `Option` of its converted value: `some v` stands for a value that
  `int(...)` / `float(...)` converts successfully to `v`, `none` for a
  value whose conversion raises `ValueError`/`TypeError`.  Raising is
  modelled by the constructor returning `none`.
* The SQLite `entries` table is modelled as a list of rows in insertion
  order (SQLite returns rows of these queries in rowid order, which is
  insertion order for this append-only table); dates are ISO-8601
  strings, ordered by the string order exactly as SQLite orders `TEXT`.
-/

/-- Python constant `KG_PER_LB = 0.453592` (line 12). -/
def KG_PER_LB : ℚ := 0.453592

/-- Python constant `M_PER_INCH = 0.0254` (line 13). -/
def M_PER_INCH : ℚ := 0.0254

/-- Python `round(q, 0)`: round half to even (banker's rounding). -/
def pyRound (q : ℚ) : ℚ :=
  if q - ⌊q⌋ < 1/2 then ((⌊q⌋ : ℤ) : ℚ)
  else if 1/2 < q - ⌊q⌋ then ((⌊q⌋ + 1 : ℤ) : ℚ)
  else if ⌊q⌋ % 2 = 0 then ((⌊q⌋ : ℤ) : ℚ) else ((⌊q⌋ + 1 : ℤ) : ℚ)

/-- State of a constructed `ProfileCalculator` (lines 16-34): `__init__`
stores `height_m = float(height_in) * M_PER_INCH` and
`weight_kg = float(weight_lb) * KG_PER_LB`. -/
structure ProfileCalculator where
  age : ℤ
  height_m : ℚ
  weight_kg : ℚ
  sex : String
  activity_level : String
deriving DecidableEq

/-- Model of `ProfileCalculator.__init__` (lines 26-34): the `try` block
converts `age` with `int(...)` and `height_in`, `weight_lb` with
`float(...)`; if any conversion raises, the `except` clause re-raises
`ValueError` (modelled by `none`).  No other validation is performed. -/
def ProfileCalculator.init (age : Option ℤ) (height_in : Option ℚ)
    (weight_lb : Option ℚ) (sex : String) (activity_level : String) :
    Option ProfileCalculator :=
  match age, height_in, weight_lb with
  | some a, some h, some w =>
      some { age := a, height_m := h * M_PER_INCH,
             weight_kg := w * KG_PER_LB, sex := sex,
             activity_level := activity_level }
  | _, _, _ => none

/-- Model of `ProfileCalculator.calculate_bmi` (lines 36-38). -/
def ProfileCalculator.calculate_bmi (c : ProfileCalculator) : ℚ :=
  if c.height_m = 0 then 0 else c.weight_kg / c.height_m ^ 2

/-- Model of `ProfileCalculator.get_bmi_category` (lines 40-44); the
method does not read `self`, so it is modelled as a plain function. -/
def get_bmi_category (bmi : ℚ) : String :=
  if bmi < 18.5 then "Underweight"
  else if bmi < 24.9 then "Healthy Weight"
  else if bmi < 29.9 then "Overweight"
  else "Obese"

/-- Model of the `ProfileCalculator.ACTIVITY_FACTORS` dict (lines 19-24)
as a lookup returning `none` on a missing key. -/
def ACTIVITY_FACTORS (level : String) : Option ℚ :=
  if level = "Sedentary (Little/No Exercise)" then some 1.2
  else if level = "Light (1-3 days/wk)" then some 1.375
  else if level = "Moderate (3-5 days/wk)" then some 1.55
  else if level = "Very Active (6-7 days/wk)" then some 1.725
  else none

/-- Model of `ProfileCalculator.calculate_bmr` (lines 46-52):
Mifflin-St Jeor with the height converted back `height_m / M_PER_INCH *
2.54` (inches to centimeters), `+5` for `'Male'` else `-161`, then
`round(bmr, 0)`. -/
def ProfileCalculator.calculate_bmr (c : ProfileCalculator) : ℚ :=
  let bmr : ℚ :=
    10 * c.weight_kg + 6.25 * (c.height_m / M_PER_INCH * 2.54)
      - 5 * (c.age : ℚ)
  pyRound (if c.sex = "Male" then bmr + 5 else bmr - 161)

/-- Model of `ProfileCalculator.calculate_tdee` (lines 54-56):
`ACTIVITY_FACTORS.get(self.activity_level, 1.2)` is the lookup with
default `1.2`, then `round(bmr * factor, 0)`. -/
def ProfileCalculator.calculate_tdee (c : ProfileCalculator) (bmr : ℚ) : ℚ :=
  pyRound (bmr * (ACTIVITY_FACTORS c.activity_level).getD 1.2)

/-- Goal-calorie adjustment before the floor check, line 420 of
`calculate_and_display_profile`:
`tdee_goal = tdee_maintenance + (-500 if goal_weight_lb < weight_lb else
500 if goal_weight_lb > weight_lb else 0)`. -/
def tdee_goal_raw (tdee_maintenance goal_weight_lb weight_lb : ℚ) : ℚ :=
  tdee_maintenance +
    (if goal_weight_lb < weight_lb then -500
     else if weight_lb < goal_weight_lb then 500 else 0)

/-- Safety floor, line 422: `1500 if sex == 'Male' else 1200`. -/
def safety_floor (sex : String) : ℚ :=
  if sex = "Male" then 1500 else 1200

/-- Final goal calories, lines 424-425: the raw goal is replaced by the
floor when `goal_weight_lb < weight_lb and tdee_goal < safety_floor`. -/
def tdee_goal (tdee_maintenance goal_weight_lb weight_lb : ℚ)
    (sex : String) : ℚ :=
  if goal_weight_lb < weight_lb ∧
      tdee_goal_raw tdee_maintenance goal_weight_lb weight_lb
        < safety_floor sex then
    safety_floor sex
  else tdee_goal_raw tdee_maintenance goal_weight_lb weight_lb

/-- Condition of line 443 under which the display appends
`" (Safety Floor)"` to the goal calories:
`goal_weight_lb < weight_lb and tdee_goal == safety_floor`. -/
def floor_flag (tdee_maintenance goal_weight_lb weight_lb : ℚ)
    (sex : String) : Bool :=
  decide (goal_weight_lb < weight_lb ∧
    tdee_goal tdee_maintenance goal_weight_lb weight_lb sex
      = safety_floor sex)

/-- Row of the SQLite `entries` table (line 72), in insertion (rowid)
order inside the modelled table. -/
structure EntryRow where
  user_id : ℕ
  meal : String
  calories : ℤ
  entry_date : String
deriving DecidableEq

/-- Model of `DatabaseManager.save_entry` (lines 152-159): the date
defaults to `date.today().isoformat()` (the `today` argument) and one
row is appended to the `entries` table. -/
def save_entry (db : List EntryRow) (today : String) (user_id : ℕ)
    (meal : String) (calories : ℤ) (entry_date : Option String) :
    List EntryRow :=
  db ++ [{ user_id := user_id, meal := meal, calories := calories,
           entry_date := entry_date.getD today }]

/-- Model of `DatabaseManager.load_entries` (lines 161-168): `SELECT
meal, calories FROM entries WHERE user_id = ? AND entry_date = ?`, rows
in rowid (insertion) order. -/
def load_entries (db : List EntryRow) (today : String) (user_id : ℕ)
    (entry_date : Option String) : List (String × ℤ) :=
  let d := entry_date.getD today
  (db.filter fun r => r.user_id == user_id && r.entry_date == d).map
    fun r => (r.meal, r.calories)

/-- Calorie sum `SUM(calories)` of one user's entries on one date. -/
def day_total (db : List EntryRow) (user_id : ℕ) (d : String) : ℤ :=
  ((db.filter fun r => r.user_id == user_id && r.entry_date == d).map
    fun r => r.calories).sum

/-- Distinct `entry_date` values of one user's entries (the `GROUP BY
entry_date` groups). -/
def user_dates (db : List EntryRow) (user_id : ℕ) : List String :=
  ((db.filter fun r => r.user_id == user_id).map
    fun r => r.entry_date).dedup

instance decRevLe : DecidableRel (fun a b : String => b ≤ a) :=
  fun a b => decidable_of_iff (b.toList ≤ a.toList)
    String.le_iff_toList_le.symm

/-- Model of `DatabaseManager.load_daily_totals` (lines 170-182):
`SELECT entry_date, SUM(calories) ... GROUP BY entry_date ORDER BY
entry_date DESC LIMIT ?`.  The distinct dates are sorted descending (on
`TEXT`, SQLite compares strings) and truncated to `limit`. -/
def load_daily_totals (db : List EntryRow) (user_id : ℕ)
    (limit : ℕ) : List (String × ℤ) :=
  let sorted :=
    (user_dates db user_id).insertionSort (fun a b => b ≤ a)
  (sorted.take limit).map fun d => (d, day_total db user_id d)

/-- Row returned by `DatabaseManager.get_user_profile` (lines 148-150):
each column may be SQL `NULL` (`None` in Python), which happens for
every profile column of a user who registered but never saved a
profile. -/
structure ProfileRow where
  age : Option ℤ
  height : Option ℚ
  weight : Option ℚ
  goal_weight : Option ℚ
  sex : Option String
  activity_level : Option String

/-- Outcome of `CalorieTrackerApp.calculate_and_display_profile`:
the red `Profile Data Missing` label (lines 407-409), the red
`Error in calculation` label (lines 457-458), or the metrics summary
with BMI, category, BMR, maintenance TDEE, goal calories and whether
the goal is annotated `(Safety Floor)` (lines 413-454). -/
inductive ProfileDisplay where
  | missing : ProfileDisplay
  | calc_error : ProfileDisplay
  | metrics (bmi : ℚ) (category : String) (bmr : ℚ)
      (tdee_maintenance : ℚ) (goal : ℚ) (flagged : Bool) : ProfileDisplay
deriving DecidableEq

/-- Model of `CalorieTrackerApp.calculate_and_display_profile` (lines
405-458): `profile_data = none` models `fetchone` returning `None`; a
`none` field models a SQL `NULL` column, caught by
`any(x is None for x in profile_data)`.  Otherwise the calculator is
constructed and the metrics computed; a `ValueError` from construction
would yield `calc_error`. -/
def calculate_and_display_profile (profile_data : Option ProfileRow) :
    ProfileDisplay :=
  match profile_data with
  | none => .missing
  | some p =>
    match p.age, p.height, p.weight, p.goal_weight, p.sex,
        p.activity_level with
    | some age, some height_in, some weight_lb, some goal_weight_lb,
        some sex, some activity_level =>
      match ProfileCalculator.init (some age) (some height_in)
          (some weight_lb) sex activity_level with
      | none => .calc_error
      | some calculator =>
        let current_bmi := calculator.calculate_bmi
        let bmi_category := get_bmi_category current_bmi
        let bmr := calculator.calculate_bmr
        let tdee_maintenance := calculator.calculate_tdee bmr
        .metrics current_bmi bmi_category bmr tdee_maintenance
          (tdee_goal tdee_maintenance goal_weight_lb weight_lb sex)
          (floor_flag tdee_maintenance goal_weight_lb weight_lb sex)
    | _, _, _, _, _, _ => .missing

theorem c4_bmi_category_boundaries :
    (∀ bmi : ℚ,
      (get_bmi_category bmi = "Underweight" ↔ bmi < 18.5) ∧
      (get_bmi_category bmi = "Healthy Weight" ↔ 18.5 ≤ bmi ∧ bmi < 24.9) ∧
      (get_bmi_category bmi = "Overweight" ↔ 24.9 ≤ bmi ∧ bmi < 29.9) ∧
      (get_bmi_category bmi = "Obese" ↔ 29.9 ≤ bmi)) ∧
    get_bmi_category 18.5 = "Healthy Weight" ∧
    get_bmi_category 18.49 = "Underweight" ∧
    get_bmi_category 24.9 = "Overweight" ∧
    get_bmi_category 29.9 = "Obese" := by
  refine ⟨fun bmi => ?_, by norm_num [get_bmi_category],
    by norm_num [get_bmi_category], by norm_num [get_bmi_category],
    by norm_num [get_bmi_category]⟩
  unfold get_bmi_category
  split_ifs with h1 h2 h3 <;>
    refine ⟨?_, ?_, ?_, ?_⟩ <;> simp <;>
      first
        | linarith
        | (constructor <;> linarith)
        | (intro h; linarith)

theorem c8_bmi_zero_height :
    ∀ c : ProfileCalculator,
      (c.height_m = 0 → c.calculate_bmi = 0) ∧
      (c.height_m ≠ 0 →
        c.calculate_bmi = c.weight_kg / c.height_m ^ 2) := by
  intro c
  refine ⟨fun h => ?_, fun h => ?_⟩ <;>
    unfold ProfileCalculator.calculate_bmi <;> simp [h]

theorem c8_bmi_zero_height_witness :
    (ProfileCalculator.mk 30 0 (175 * KG_PER_LB) "Male"
      "Sedentary (Little/No Exercise)").calculate_bmi = 0 ∧
    (ProfileCalculator.mk 30 (70 * M_PER_INCH) (175 * KG_PER_LB) "Male"
      "Sedentary (Little/No Exercise)").calculate_bmi =
      (175 * KG_PER_LB) / (70 * M_PER_INCH) ^ 2 := by
  constructor
  · exact (c8_bmi_zero_height _).1 rfl
  · exact (c8_bmi_zero_height _).2 (by norm_num [M_PER_INCH])

theorem c9_activity_factor_fallback :
    (∀ level : String,
      level ≠ "Sedentary (Little/No Exercise)" →
      level ≠ "Light (1-3 days/wk)" →
      level ≠ "Moderate (3-5 days/wk)" →
      level ≠ "Very Active (6-7 days/wk)" →
      (ACTIVITY_FACTORS level).getD 1.2 = 1.2) ∧
    ACTIVITY_FACTORS "Sedentary (Little/No Exercise)" = some 1.2 ∧
    ACTIVITY_FACTORS "Light (1-3 days/wk)" = some 1.375 ∧
    ACTIVITY_FACTORS "Moderate (3-5 days/wk)" = some 1.55 ∧
    ACTIVITY_FACTORS "Very Active (6-7 days/wk)" = some 1.725 ∧
    ∀ (c : ProfileCalculator) (bmr : ℚ),
      c.calculate_tdee bmr =
        pyRound (bmr * (ACTIVITY_FACTORS c.activity_level).getD 1.2) := by
  refine ⟨fun level h1 h2 h3 h4 => ?_, by simp [ACTIVITY_FACTORS],
    by simp [ACTIVITY_FACTORS], by simp [ACTIVITY_FACTORS],
    by simp [ACTIVITY_FACTORS], fun c bmr => rfl⟩
  unfold ACTIVITY_FACTORS
  rw [if_neg h1, if_neg h2, if_neg h3, if_neg h4]
  rfl

theorem c9_activity_factor_fallback_witness :
    ("Unknown" : String) ≠ "Sedentary (Little/No Exercise)" ∧
    (ACTIVITY_FACTORS "Unknown").getD 1.2 = 1.2 := by
  refine ⟨by decide, c9_activity_factor_fallback.1 "Unknown" (by decide)
    (by decide) (by decide) (by decide)⟩

theorem c1_counterexample :
    ¬ (∀ (age : Option ℤ) (height_in weight_lb : Option ℚ)
        (sex activity_level : String),
        (age = none ∨ height_in = none ∨ weight_lb = none ∨
          (∃ a, age = some a ∧ a ≤ 0) ∨
          (∃ x, height_in = some x ∧ x ≤ 0) ∨
          (∃ x, weight_lb = some x ∧ x ≤ 0)) →
        ProfileCalculator.init age height_in weight_lb sex activity_level
          = none) := by
  intro hclaim
  have h := hclaim (some (-5)) (some 70) (some 175) "Male"
    "Moderate (3-5 days/wk)"
    (Or.inr (Or.inr (Or.inr (Or.inl ⟨-5, rfl, by norm_num⟩))))
  simp [ProfileCalculator.init] at h

theorem c1_init_checks_only_convertibility :
    ∀ (age : Option ℤ) (height_in weight_lb : Option ℚ)
      (sex activity_level : String),
      ProfileCalculator.init age height_in weight_lb sex activity_level
          = none ↔
        (age = none ∨ height_in = none ∨ weight_lb = none) := by
  intro age h w s l
  cases age <;> cases h <;> cases w <;> simp [ProfileCalculator.init]

theorem c10_init_numeric_accepted :
    (∀ (age : Option ℤ) (height_in weight_lb : Option ℚ)
      (sex activity_level : String),
      (ProfileCalculator.init age height_in weight_lb sex
        activity_level).isSome ↔
        (age ≠ none ∧ height_in ≠ none ∧ weight_lb ≠ none)) ∧
    (∀ (a : ℤ) (h w : ℚ) (sex activity_level : String),
      ProfileCalculator.init (some a) (some h) (some w) sex activity_level
        = some (ProfileCalculator.mk a (h * M_PER_INCH) (w * KG_PER_LB)
            sex activity_level)) ∧
    (ProfileCalculator.mk 0 (0 * M_PER_INCH) ((-3) * KG_PER_LB) "Female"
      "Light (1-3 days/wk)").calculate_bmi = 0 ∧
    (ProfileCalculator.mk (-5) (0 * M_PER_INCH) (0 * KG_PER_LB) "Female"
      "Light (1-3 days/wk)").calculate_bmr = -136 := by
  refine ⟨fun age h w s l => ?_, fun a h w s l => rfl, ?_, ?_⟩
  · cases age <;> cases h <;> cases w <;> simp [ProfileCalculator.init]
  · simp [ProfileCalculator.calculate_bmi]
  · have hfm : ¬ ("Female" : String) = "Male" := by decide
    show pyRound _ = -136
    rw [if_neg hfm]
    norm_num [pyRound, M_PER_INCH, KG_PER_LB]

theorem c3_bmr_tdee_mifflin :
    (∀ (a : ℤ) (h w : ℚ) (sex activity_level : String)
      (c : ProfileCalculator),
      ProfileCalculator.init (some a) (some h) (some w) sex activity_level
          = some c →
      c.calculate_bmr =
        pyRound (10 * (w * KG_PER_LB) + 6.25 * (h * 2.54) - 5 * (a : ℚ) +
          (if sex = "Male" then 5 else -161))) ∧
    (∀ q : ℚ, ∃ z : ℤ, pyRound q = (z : ℚ)) ∧
    (∀ q : ℚ, |pyRound q - q| ≤ 1/2) ∧
    (∀ (c : ProfileCalculator) (bmr : ℚ),
      c.calculate_tdee bmr =
        pyRound (bmr * (ACTIVITY_FACTORS c.activity_level).getD 1.2)) ∧
    (∀ c : ProfileCalculator,
      ProfileCalculator.init (some 30) (some 70) (some 175) "Male"
        "Moderate (3-5 days/wk)" = some c →
      c.calculate_bmr = 1760 ∧ c.calculate_tdee 1760 = 2728) := by
  have hM : M_PER_INCH ≠ 0 := by norm_num [M_PER_INCH]
  refine ⟨fun a h w sex activity_level c hc => ?_, fun q => ?_, fun q => ?_,
    fun c bmr => rfl, fun c hc => ?_⟩
  · simp only [ProfileCalculator.init, Option.some.injEq] at hc
    subst hc
    show pyRound _ = _
    congr 1
    rw [mul_div_cancel_right₀ h hM]
    split_ifs <;> ring
  · unfold pyRound
    split_ifs <;> exact ⟨_, rfl⟩
  · have h0 : (0:ℚ) ≤ q - ⌊q⌋ := by linarith [Int.floor_le q]
    have h1 : q - ⌊q⌋ < 1 := by linarith [Int.lt_floor_add_one q]
    unfold pyRound
    split_ifs with ha hb hcond <;>
      (rw [abs_le]; push_cast; constructor <;> linarith)
  · simp only [ProfileCalculator.init, Option.some.injEq] at hc
    subst hc
    constructor
    · show pyRound _ = _
      rw [if_pos rfl]
      norm_num [pyRound, M_PER_INCH, KG_PER_LB]
    · have hfac : (ACTIVITY_FACTORS "Moderate (3-5 days/wk)").getD 1.2
          = 1.55 := by simp [ACTIVITY_FACTORS]
      show pyRound (1760 *
        (ACTIVITY_FACTORS "Moderate (3-5 days/wk)").getD 1.2) = 2728
      rw [hfac]
      norm_num [pyRound]

theorem c3_bmr_tdee_mifflin_witness :
    ProfileCalculator.init (some 30) (some 70) (some 175) "Male"
        "Moderate (3-5 days/wk)" =
      some (ProfileCalculator.mk 30 (70 * M_PER_INCH) (175 * KG_PER_LB)
        "Male" "Moderate (3-5 days/wk)") ∧
    (ProfileCalculator.mk 30 (70 * M_PER_INCH) (175 * KG_PER_LB) "Male"
      "Moderate (3-5 days/wk)").calculate_bmr = 1760 ∧
    (ProfileCalculator.mk 30 (70 * M_PER_INCH) (175 * KG_PER_LB) "Male"
      "Moderate (3-5 days/wk)").calculate_tdee 1760 = 2728 := by
  refine ⟨rfl, ?_, ?_⟩
  · exact (c3_bmr_tdee_mifflin.2.2.2.2 _ rfl).1
  · exact (c3_bmr_tdee_mifflin.2.2.2.2 _ rfl).2

theorem c2_counterexample :
    floor_flag 2000 160 175 "Male" = true ∧
    tdee_goal_raw 2000 160 175 = safety_floor "Male" ∧
    ¬ tdee_goal_raw 2000 160 175 < safety_floor "Male" ∧
    tdee_goal 2000 160 175 "Male" = tdee_goal_raw 2000 160 175 := by
  have h1 : tdee_goal_raw 2000 160 175 = 1500 := by
    norm_num [tdee_goal_raw]
  have hf : safety_floor "Male" = 1500 := by simp [safety_floor]
  have h2 : tdee_goal 2000 160 175 "Male" = 1500 := by
    unfold tdee_goal
    rw [h1, hf]
    norm_num
  refine ⟨?_, by rw [h1, hf], by rw [h1, hf]; norm_num, by rw [h2, h1]⟩
  unfold floor_flag
  simp only [decide_eq_true_eq]
  exact ⟨by norm_num, by rw [h2, hf]⟩

theorem c2_goal_calories_floor :
    safety_floor "Male" = 1500 ∧ safety_floor "Female" = 1200 ∧
    ∀ (tdee_maintenance goal_weight_lb weight_lb : ℚ) (sex : String),
      (goal_weight_lb < weight_lb →
        tdee_goal tdee_maintenance goal_weight_lb weight_lb sex =
          max (tdee_maintenance - 500) (safety_floor sex) ∧
        (floor_flag tdee_maintenance goal_weight_lb weight_lb sex = true ↔
          tdee_maintenance - 500 ≤ safety_floor sex)) ∧
      (weight_lb < goal_weight_lb →
        tdee_goal tdee_maintenance goal_weight_lb weight_lb sex =
          tdee_maintenance + 500 ∧
        floor_flag tdee_maintenance goal_weight_lb weight_lb sex
          = false) ∧
      (goal_weight_lb = weight_lb →
        tdee_goal tdee_maintenance goal_weight_lb weight_lb sex =
          tdee_maintenance ∧
        floor_flag tdee_maintenance goal_weight_lb weight_lb sex
          = false) := by
  refine ⟨by simp [safety_floor], by simp [safety_floor],
    fun m gw w sex => ⟨fun hlt => ?_, fun hgt => ?_, fun heq => ?_⟩⟩
  · have hraw : tdee_goal_raw m gw w = m - 500 := by
      unfold tdee_goal_raw
      rw [if_pos hlt]
      ring
    have hgoal : tdee_goal m gw w sex =
        max (m - 500) (safety_floor sex) := by
      unfold tdee_goal
      rw [hraw]
      by_cases hc : m - 500 < safety_floor sex
      · rw [if_pos ⟨hlt, hc⟩, max_eq_right hc.le]
      · rw [if_neg (fun hh => hc hh.2), max_eq_left (not_lt.mp hc)]
    refine ⟨hgoal, ?_⟩
    unfold floor_flag
    simp only [decide_eq_true_eq]
    constructor
    · rintro ⟨-, hg⟩
      rw [hgoal] at hg
      exact max_eq_right_iff.mp hg
    · intro hle
      exact ⟨hlt, by rw [hgoal, max_eq_right hle]⟩
  · have hraw : tdee_goal_raw m gw w = m + 500 := by
      unfold tdee_goal_raw
      rw [if_neg (lt_asymm hgt), if_pos hgt]
    constructor
    · unfold tdee_goal
      rw [if_neg fun hh => lt_asymm hgt hh.1, hraw]
    · unfold floor_flag
      simp only [decide_eq_false_iff_not]
      rintro ⟨hh, -⟩
      exact lt_asymm hgt hh
  · subst heq
    have hraw : tdee_goal_raw m gw gw = m := by
      unfold tdee_goal_raw
      rw [if_neg (lt_irrefl gw), if_neg (lt_irrefl gw)]
      ring
    constructor
    · unfold tdee_goal
      rw [if_neg fun hh => lt_irrefl gw hh.1, hraw]
    · unfold floor_flag
      simp only [decide_eq_false_iff_not]
      rintro ⟨hh, -⟩
      exact lt_irrefl gw hh

theorem c2_goal_calories_floor_witness :
    (150 : ℚ) < 175 ∧
    tdee_goal 1400 150 175 "Female" = 1200 ∧
    floor_flag 1400 150 175 "Female" = true := by
  obtain ⟨hgoal, hflag⟩ :=
    (c2_goal_calories_floor.2.2 1400 150 175 "Female").1 (by norm_num)
  have hsf : safety_floor "Female" = 1200 := by simp [safety_floor]
  refine ⟨by norm_num, ?_, hflag.mpr (by rw [hsf]; norm_num)⟩
  rw [hgoal, hsf, max_eq_right (by norm_num : (1400:ℚ) - 500 ≤ 1200)]

theorem c7_incomplete_profile_refused :
    (∀ pd : Option ProfileRow,
      calculate_and_display_profile pd = ProfileDisplay.missing ↔
        (pd = none ∨ ∃ p, pd = some p ∧ (p.age = none ∨ p.height = none ∨
          p.weight = none ∨ p.goal_weight = none ∨ p.sex = none ∨
          p.activity_level = none))) ∧
    (∀ p : ProfileRow,
      (∃ a h w gw s l,
        p = ProfileRow.mk (some a) (some h) (some w) (some gw) (some s)
          (some l)) →
      ∃ bmi cat bmr tdee goal fl,
        calculate_and_display_profile (some p) =
          ProfileDisplay.metrics bmi cat bmr tdee goal fl) := by
  constructor
  · rintro (_ | p)
    · simp [calculate_and_display_profile]
    · obtain ⟨a, h, w, gw, s, l⟩ := p
      cases a <;> cases h <;> cases w <;> cases gw <;> cases s <;>
        cases l <;>
        simp [calculate_and_display_profile, ProfileCalculator.init]
  · rintro p ⟨a, h, w, gw, s, l, rfl⟩
    exact ⟨_, _, _, _, _, _, rfl⟩

theorem c7_incomplete_profile_refused_witness :
    ∃ bmi cat bmr tdee goal fl,
      calculate_and_display_profile (some (ProfileRow.mk (some 30)
        (some 70) (some 175) (some 170) (some "Male")
        (some "Moderate (3-5 days/wk)"))) =
        ProfileDisplay.metrics bmi cat bmr tdee goal fl :=
  c7_incomplete_profile_refused.2 _ ⟨30, 70, 175, 170, "Male",
    "Moderate (3-5 days/wk)", rfl⟩

theorem c5_save_load_roundtrip :
    (∀ (db : List EntryRow) (today d : String) (user_id : ℕ)
      (meal : String) (calories : ℤ),
      load_entries (save_entry db today user_id meal calories (some d))
          today user_id (some d) =
        load_entries db today user_id (some d) ++ [(meal, calories)]) ∧
    (∀ (db : List EntryRow) (today today2 d d2 : String)
      (user_id user_id2 : ℕ) (meal : String) (calories : ℤ),
      user_id2 ≠ user_id ∨ d2 ≠ d →
      load_entries (save_entry db today user_id meal calories (some d))
          today2 user_id2 (some d2) =
        load_entries db today2 user_id2 (some d2)) ∧
    (∀ (today d : String) (user_id : ℕ),
      load_entries ([] : List EntryRow) today user_id (some d) = []) := by
  refine ⟨fun db today d uid meal cal => ?_,
    fun db t t2 d d2 u u2 meal cal hne => ?_, fun t d u => rfl⟩
  · simp [load_entries, save_entry, List.filter_append]
  · rcases hne with h | h <;>
      simp [load_entries, save_entry, List.filter_append, Ne.symm h]

theorem c5_save_load_roundtrip_witness :
    ((1 : ℕ) ≠ 1 ∨ ("2024-01-03" : String) ≠ "2024-01-02") ∧
    load_entries (save_entry [] "t" 1 "Apple" 95 (some "2024-01-02")) "t"
        1 (some "2024-01-03") = [] := by
  refine ⟨Or.inr (by decide), ?_⟩
  rw [c5_save_load_roundtrip.2.1 [] "t" "t" "2024-01-02" "2024-01-03" 1 1
    "Apple" 95 (Or.inr (by decide))]
  exact c5_save_load_roundtrip.2.2 "t" "2024-01-03" 1

instance : IsTotal String (fun a b => b ≤ a) :=
  ⟨fun a b => Or.symm (le_total a b)⟩

instance : IsTrans String (fun a b => b ≤ a) :=
  ⟨fun _ _ _ hab hbc => le_trans hbc hab⟩

lemma load_daily_totals_eq (db : List EntryRow) (user_id limit : ℕ) :
    load_daily_totals db user_id limit =
      (((user_dates db user_id).insertionSort
        (fun a b => b ≤ a)).take limit).map
          fun d => (d, day_total db user_id d) := rfl

lemma map_fst_load_daily_totals (db : List EntryRow)
    (user_id limit : ℕ) :
    (load_daily_totals db user_id limit).map Prod.fst =
      ((user_dates db user_id).insertionSort
        (fun a b => b ≤ a)).take limit := by
  rw [load_daily_totals_eq, List.map_map]
  have hcomp : (Prod.fst ∘ fun d : String =>
      (d, day_total db user_id d)) = id := rfl
  rw [hcomp, List.map_id]

lemma sorted_dates_strict (db : List EntryRow) (user_id : ℕ) :
    List.Pairwise (fun a b : String => b < a)
      ((user_dates db user_id).insertionSort (fun a b => b ≤ a)) := by
  have hs := List.sorted_insertionSort (fun a b : String => b ≤ a)
    (user_dates db user_id)
  have hn : ((user_dates db user_id).insertionSort
      (fun a b => b ≤ a)).Nodup :=
    (List.perm_insertionSort _ _).nodup_iff.mpr (List.nodup_dedup _)
  exact (List.Pairwise.and hs hn).imp
    fun hab => lt_of_le_of_ne hab.1 (Ne.symm hab.2)

/-- Demonstration table: user 1 has entries on three distinct dates
(with two entries on two of them), user 2 on a fourth date. -/
def demo_entries : List EntryRow :=
  [⟨1, "Oatmeal", 300, "2024-01-01"⟩,
   ⟨1, "Chicken and Veggies", 750, "2024-01-01"⟩,
   ⟨1, "Scrambled Eggs", 450, "2024-01-02"⟩,
   ⟨2, "Other User Meal", 100, "2024-01-04"⟩,
   ⟨1, "Pasta Dinner", 800, "2024-01-03"⟩,
   ⟨1, "Protein Shake", 200, "2024-01-02"⟩]

theorem c6_daily_totals :
    (∀ (db : List EntryRow) (user_id limit : ℕ),
      List.Pairwise (fun a b : String => b < a)
        ((load_daily_totals db user_id limit).map Prod.fst) ∧
      (load_daily_totals db user_id limit).length =
        min limit (user_dates db user_id).length ∧
      (∀ (d : String) (t : ℤ),
        (d, t) ∈ load_daily_totals db user_id limit →
        d ∈ user_dates db user_id ∧ t = day_total db user_id d) ∧
      (∀ d : String, d ∈ user_dates db user_id →
        d ∉ (load_daily_totals db user_id limit).map Prod.fst →
        ∀ d2 : String,
          d2 ∈ (load_daily_totals db user_id limit).map Prod.fst →
          d < d2) ∧
      ((user_dates db user_id).length ≤ limit →
        ∀ d : String,
          d ∈ (load_daily_totals db user_id limit).map Prod.fst ↔
          d ∈ user_dates db user_id)) ∧
    load_daily_totals demo_entries 1 2 =
      [("2024-01-03", 800), ("2024-01-02", 650)] ∧
    (user_dates demo_entries 1).Perm
      ["2024-01-01", "2024-01-02", "2024-01-03"] ∧
    day_total demo_entries 1 "2024-01-03" = 800 ∧
    day_total demo_entries 1 "2024-01-02" = 650 := by
  refine ⟨fun db uid limit => ?_, by decide, by decide, by decide,
    by decide⟩
  have hperm := List.perm_insertionSort (fun a b : String => b ≤ a)
    (user_dates db uid)
  have hstrict := sorted_dates_strict db uid
  have hmapfst := map_fst_load_daily_totals db uid limit
  refine ⟨?_, ?_, ?_, ?_, ?_⟩
  · rw [hmapfst]
    exact List.Pairwise.sublist (List.take_sublist _ _) hstrict
  · rw [load_daily_totals_eq, List.length_map, List.length_take,
      hperm.length_eq]
  · intro d t hmem
    rw [load_daily_totals_eq] at hmem
    obtain ⟨d2, hd2, heq⟩ := List.mem_map.mp hmem
    obtain ⟨rfl, rfl⟩ := Prod.mk.injEq .. |>.mp heq
    exact ⟨hperm.subset (List.mem_of_mem_take hd2), rfl⟩
  · intro d hd hnotin d2 hd2
    rw [hmapfst] at hnotin hd2
    have hmem : d ∈ (user_dates db uid).insertionSort
        (fun a b => b ≤ a) := hperm.mem_iff.mpr hd
    have hsplit := (List.take_append_drop limit
      ((user_dates db uid).insertionSort (fun a b => b ≤ a))).symm
    have hdrop : d ∈ ((user_dates db uid).insertionSort
        (fun a b => b ≤ a)).drop limit := by
      rcases List.mem_append.mp (hsplit ▸ hmem) with h | h
      · exact absurd h hnotin
      · exact h
    have hpw := hstrict
    rw [hsplit] at hpw
    exact (List.pairwise_append.mp hpw).2.2 d2 hd2 d hdrop
  · intro hlen d
    have hl2 : ((user_dates db uid).insertionSort
        (fun a b => b ≤ a)).length ≤ limit := by
      rw [hperm.length_eq]
      exact hlen
    rw [hmapfst, List.take_of_length_le hl2]
    exact hperm.mem_iff

theorem c6_daily_totals_witness :
    ("2024-01-03", (800 : ℤ)) ∈ load_daily_totals demo_entries 1 2 ∧
    "2024-01-03" ∈ user_dates demo_entries 1 ∧
    (800 : ℤ) = day_total demo_entries 1 "2024-01-03" ∧
    ("2024-01-01" : String) < "2024-01-02" ∧
    ("2024-01-02" ∈ (load_daily_totals demo_entries 1 3).map Prod.fst ↔
      "2024-01-02" ∈ user_dates demo_entries 1) := by
  have h := (c6_daily_totals.1 demo_entries 1 2).2.2.1 "2024-01-03" 800
    (by decide)
  refine ⟨by decide, h.1, h.2, ?_, ?_⟩
  · exact (c6_daily_totals.1 demo_entries 1 2).2.2.2.1 "2024-01-01"
      (by decide) (by decide) "2024-01-02" (by decide)
  · exact (c6_daily_totals.1 demo_entries 1 3).2.2.2.2 (by decide)
      "2024-01-02"
